import Mathlib

/-!
Verification of the streaming protocol client of
`snowflake_cortex_agent_client.py` (SSE frame decoding, event
normalization, content extraction, and the streaming run orchestrator),
as a shallow embedding in Lean 4.

JSON values are modelled by `JVal`; Python dicts become insertion-ordered
association lists.  The JSON parser (`json.loads`, library code external
to the repository) is an abstract parameter `jparse : String → Option JVal`
of every function that parses, where `none` models a `JSONDecodeError`.
-/

/-- JSON values as produced by `json.loads`: objects are insertion-ordered
association lists, mirroring Python dict insertion order. -/
inductive JVal where
  | null : JVal
  | bool (b : Bool) : JVal
  | num (n : Int) : JVal
  | str (s : String) : JVal
  | arr (xs : List JVal) : JVal
  | obj (fields : List (String × JVal)) : JVal
deriving Repr, Inhabited, BEq

/-- Key lookup on a JSON value, Python `dict.get`: `none` for a missing key
or a non-dict receiver. -/
def jGet (v : JVal) (k : String) : Option JVal :=
  match v with
  | .obj fields => fields.lookup k
  | _ => none

/-- Lookup of a key whose value must be a string, modelling the recurring
Python pattern `isinstance(d.get(k), str)`. -/
def getStr (f : List (String × JVal)) (k : String) : Option String :=
  match f.lookup k with
  | some (.str s) => some s
  | _ => none

/-- Python truthiness of a JSON value (`if not event`). -/
def jTruthy : JVal → Bool
  | .null => false
  | .bool b => b
  | .num n => n != 0
  | .str s => s != ""
  | .arr xs => !xs.isEmpty
  | .obj f => !f.isEmpty

/-- The characters Python's parameterless `str.strip` / `str.lstrip`
remove. -/
def pyWsChars : List Char := [' ', '\t', '\n', '\r', '\x0b', '\x0c']

/-- Python `str.lstrip()`. -/
def pyLStrip (s : String) : String :=
  String.mk (s.toList.dropWhile (· ∈ pyWsChars))

/-- Python `str.strip()`. -/
def pyStrip (s : String) : String :=
  String.mk (((s.toList.dropWhile (· ∈ pyWsChars)).reverse.dropWhile
    (· ∈ pyWsChars)).reverse)

/-- Python `str.strip('\n')`, applied to each raw streamed line. -/
def stripNl (s : String) : String :=
  String.mk (((s.toList.dropWhile (· = '\n')).reverse.dropWhile
    (· = '\n')).reverse)

/-- Python slicing `s[:n]` on a text body. -/
def pyTake (s : String) (n : Nat) : String :=
  String.mk (s.toList.take n)

/-- Python `s.startswith(pre)` (character-based, as Python strings are). -/
def pyStartsWith (s pre : String) : Bool :=
  pre.toList.isPrefixOf s.toList

/-- Python slicing `s[n:]` (character-based). -/
def pyDropChars (s : String) (n : Nat) : String :=
  String.mk (s.toList.drop n)

/-- Python `"\n".join(lines)`. -/
def pyJoinNl : List String → String
  | [] => ""
  | [x] => x
  | x :: xs => x ++ "\n" ++ pyJoinNl xs

/-! ## SSE block normalization (`_parse_sse_block`) -/

/-- The frame-level event-type name of a block: the last `event:` line wins,
its remainder stripped (`line[len('event:'):].strip()`). `none` when no
`event:` line occurred. -/
def sse_event_type (lines : List String) : Option String :=
  lines.foldl
    (fun acc l =>
      if pyStartsWith l "event:" then some (pyStrip (pyDropChars l 6)) else acc)
    none

/-- The payload lines of a block: every `data:` line with the prefix removed
and left-stripped (`line[len('data:'):].lstrip()`); `event:` lines are
consumed by the event-type branch first. -/
def sse_data_lines (lines : List String) : List String :=
  lines.filterMap (fun l =>
    if pyStartsWith l "event:" then none
    else if pyStartsWith l "data:" then some (pyLStrip (pyDropChars l 5))
    else none)

/-- `"\n".join(data_lines).strip()`. -/
def sse_data_str (lines : List String) : String :=
  pyStrip (pyJoinNl (sse_data_lines lines))

/-- The `event` entry attached to a raw-data wrapper: present exactly when
the frame-level name is truthy (`if event_type:`). -/
def wrapperEventField (event_type : Option String) : List (String × JVal) :=
  match event_type with
  | some et => if et != "" then [("event", JVal.str et)] else []
  | none => []

/-- `_parse_sse_block`: normalize one raw SSE block.  Empty joined data
yields `none`; a JSON parse failure wraps the raw string as
`{data: raw, event?}`; a parsed object gets the frame name injected under
`event` only when truthy and not already present; a parsed non-object value
is wrapped as `{data: value, event?}`. -/
def parse_sse_block (jparse : String → Option JVal) (lines : List String) :
    Option JVal :=
  if sse_data_str lines = "" then none
  else
    match jparse (sse_data_str lines) with
    | none =>
        some (.obj (("data", JVal.str (sse_data_str lines)) ::
          wrapperEventField (sse_event_type lines)))
    | some (.obj fields) =>
        match sse_event_type lines with
        | some et =>
            if et != "" && (fields.lookup "event").isNone then
              some (.obj (fields ++ [("event", JVal.str et)]))
            else some (.obj fields)
        | none => some (.obj fields)
    | some parsed =>
        some (.obj (("data", parsed) :: wrapperEventField (sse_event_type lines)))

/-! ## SSE frame decoding (`_iter_sse`) -/

/-- The accumulator loop of `_iter_sse`, yielding raw blocks instead of
parsed events: a blank (stripped) line flushes the buffer, a non-blank line
is appended, and a non-empty buffer is flushed at end-of-stream. -/
def sse_blocks_go : List String → List String → List (List String)
  | buffer, [] => if buffer.isEmpty then [] else [buffer]
  | buffer, raw :: rest =>
      if stripNl raw = "" then buffer :: sse_blocks_go [] rest
      else sse_blocks_go (buffer ++ [stripNl raw]) rest

/-- Raw blocks of a complete line stream. -/
def sse_blocks (lines : List String) : List (List String) :=
  sse_blocks_go [] lines

/-- The accumulator loop when the line iterator raises before end-of-stream:
identical to `sse_blocks_go` except that the pending buffer is lost (the
trailing flush of `_iter_sse` is never reached when `iter_lines` raises). -/
def sse_blocks_noflush_go : List String → List String → List (List String)
  | _, [] => []
  | buffer, raw :: rest =>
      if stripNl raw = "" then buffer :: sse_blocks_noflush_go [] rest
      else sse_blocks_noflush_go (buffer ++ [stripNl raw]) rest

/-- Raw blocks of a line stream interrupted by a transport exception. -/
def sse_blocks_noflush (lines : List String) : List (List String) :=
  sse_blocks_noflush_go [] lines

/-- `_iter_sse`: the decoded event sequence of a complete stream (one entry
per flushed block, `none` for blocks that normalize to nothing). -/
def iter_sse (jparse : String → Option JVal) (lines : List String) :
    List (Option JVal) :=
  (sse_blocks lines).map (parse_sse_block jparse)

/-! ## Content extraction (`_extract_content`) -/

/-- Python `block.get('type') == 'text'` for a dict's fields. -/
def typeIsText (f : List (String × JVal)) : Bool :=
  match f.lookup "type" with
  | some (.str s) => s == "text"
  | _ => false

/-- One block of the `response` content-list rule: append `block['text']`
when `type == 'text'` and `text` is a string, or (elif) whenever the block
has a string `text` field. -/
def respBlockText (b : JVal) : Option String :=
  match b with
  | .obj f =>
      if typeIsText f && (getStr f "text").isSome then getStr f "text"
      else if (getStr f "text").isSome then getStr f "text"
      else none
  | _ => none

/-- One block of the generic content-list rule: only dict blocks whose
`type` is `'text'` contribute their string `text` field. -/
def genBlockText (b : JVal) : Option String :=
  match b with
  | .obj f => if typeIsText f then getStr f "text" else none
  | _ => none

/-- The texts contributed by one message of the `output.messages` walk. -/
def msgTexts (m : JVal) : List String :=
  match m with
  | .obj f =>
      match f.lookup "content" with
      | some (.arr cl) => cl.filterMap genBlockText
      | _ => []
  | _ => []

/-- Rule 1 of `_extract_content`: a string `text` field of an event named
`response.text.delta` or `response.text`. -/
def extractRule1 (event_name : Option String) (f : List (String × JVal)) :
    Option String :=
  if event_name = some "response.text.delta" ∨ event_name = some "response.text"
  then getStr f "text"
  else none

/-- Rule 2 of `_extract_content`: the concatenated text blocks of the
content list of an event named exactly `response` (only when some block
contributed). -/
def extractRule2 (event_name : Option String) (f : List (String × JVal)) :
    Option String :=
  if event_name = some "response" then
    match f.lookup "content" with
    | some (.arr cl) =>
        if (cl.filterMap respBlockText).isEmpty then none
        else some (String.join (cl.filterMap respBlockText))
    | _ => none
  else none

/-- Rule 3 of `_extract_content`: a top-level `content` field, returned
directly when a string, or concatenated under the strict text-block rule
when a list (only when some block contributed). -/
def extractRule3 (f : List (String × JVal)) : Option String :=
  match f.lookup "content" with
  | some (.str s) => some s
  | some (.arr cl) =>
      if (cl.filterMap genBlockText).isEmpty then none
      else some (String.join (cl.filterMap genBlockText))
  | _ => none

/-- Rule 4 of `_extract_content`: the `output.messages[*].content[*]` walk
(only when some block contributed; a non-dict `output` raises an
`AttributeError` in the source, caught into the empty result). -/
def extractRule4 (f : List (String × JVal)) : Option String :=
  match f.lookup "output" with
  | some (.obj out) =>
      match out.lookup "messages" with
      | some (.arr ms) =>
          if (ms.map msgTexts).flatten.isEmpty then none
          else some (String.join (ms.map msgTexts).flatten)
      | _ => none
  | _ => none

/-- `_extract_content`: priority-ordered extraction of user-visible text
from a normalized event; empty text when no rule fires or the event is not
a dict. -/
def extract_content (event : JVal) : String :=
  match event with
  | .obj f =>
      match extractRule1 (getStr f "event") f with
      | some t => t
      | none =>
          match extractRule2 (getStr f "event") f with
          | some t => t
          | none =>
              match extractRule3 f with
              | some t => t
              | none => (extractRule4 f).getD ""
  | _ => ""

/-! ## Streaming run orchestrator (`run_agent_stream`) -/

/-- The chunks `run_agent_stream` yields. -/
inductive Chunk where
  | event (e : JVal) : Chunk
  | content (s : String) : Chunk
  | final (s : String) : Chunk
  | error (s : String) : Chunk
deriving Repr, BEq

/-- The mutable fields of `SnowflakeCortexAgentClient` relevant to a run:
the configuration set in `__init__` plus the `last_error` the run paths
may write. -/
structure ClientState where
  base_url : String
  timeout_seconds : Nat
  read_timeout_seconds : Nat
  last_error : Option String
deriving Repr, BEq

/-- A transport exception raised by `requests`: a `ReadTimeout` (caught
first) or any other `RequestException`, the latter optionally carrying a
response with status code and body text. -/
inductive Exc where
  | readTimeout (msg : String) : Exc
  | requestExc (msg : String) (resp : Option (Nat × String)) : Exc
deriving Repr, BEq

/-- `_format_http_error`: the exception text, with ` | HTTP status: body`
appended (body truncated to 2000 characters) when the exception carries a
response. -/
def format_http_error (msg : String) (resp : Option (Nat × String)) : String :=
  match resp with
  | none => msg
  | some (status, body) =>
      msg ++ " | HTTP " ++ toString status ++ ": " ++ pyTake body 2000

/-- The error text set and yielded by an `except` arm of
`run_agent_stream`. -/
def excErrorText : Exc → String
  | .readTimeout msg => "Stream read timeout: " ++ msg
  | .requestExc msg resp => format_http_error msg resp

/-- An `except` arm of `run_agent_stream`: record the error on the client
and yield one `error` chunk. -/
def handle_exc (st : ClientState) (e : Exc) : List Chunk × ClientState :=
  ([Chunk.error (excErrorText e)], { st with last_error := some (excErrorText e) })

/-- `event.get('event') if isinstance(event, dict) else None`, restricted to
string-valued names (only those compare equal to the name literals). -/
def eventNameOf (event : JVal) : Option String :=
  match event with
  | .obj f => getStr f "event"
  | _ => none

/-- The chunks the streaming loop body yields for one truthy decoded event:
the raw event first when `yield_events`, then a `final` chunk for an event
named exactly `response` with non-empty extracted content, or a `content`
chunk for any other event with non-empty extracted content. -/
def chunks_for_event (yield_events : Bool) (event : JVal) : List Chunk :=
  (if yield_events then [Chunk.event event] else []) ++
    (if eventNameOf event = some "response" then
       if extract_content event != "" then [Chunk.final (extract_content event)] else []
     else
       if extract_content event != "" then [Chunk.content (extract_content event)] else [])

/-- The full streaming loop over a decoded event sequence, skipping falsy
events (`if not event: continue`). -/
def stream_chunks (yield_events : Bool) (events : List (Option JVal)) :
    List Chunk :=
  (events.map (fun ev =>
    match ev with
    | none => []
    | some e => if jTruthy e then chunks_for_event yield_events e else [])).flatten

/-- The observable behaviour of the underlying HTTP exchange of one run:
either a response (status code, body text, the lines `iter_lines` delivers,
and optionally a transport exception raised after those lines), or an
exception raised while opening the connection. -/
inductive RunConn where
  | response (status : Nat) (body : String) (lines : List String)
      (tail : Option Exc) : RunConn
  | connError (e : Exc) : RunConn

/-- `run_agent_stream`: the chunk sequence of one streaming run and the
client state after it.  A non-200 status yields a single `error` chunk
(without touching `last_error`); a 200 status drives decode / normalize /
classify over the delivered lines (without the trailing buffer flush when
a transport exception interrupts the stream, which then appends its
`error` chunk and records `last_error`). -/
def run_agent_stream (jparse : String → Option JVal) (st : ClientState)
    (conn : RunConn) (yield_events : Bool) : List Chunk × ClientState :=
  match conn with
  | .connError e => handle_exc st e
  | .response status body lines tail =>
      if status ≠ 200 then
        ([Chunk.error ("HTTP " ++ toString status ++ ": " ++ pyTake body 2000)], st)
      else
        match tail with
        | none =>
            (stream_chunks yield_events (iter_sse jparse lines), st)
        | some e =>
            (stream_chunks yield_events
                ((sse_blocks_noflush lines).map (parse_sse_block jparse)) ++
              (handle_exc st e).1,
             (handle_exc st e).2)

/-! ## Run request payload construction -/

/-- The payload built by `run_agent` (lines 137-142): `messages` always,
`tool_choice` when supplied, and `thread_id` / `parent_message_id` exactly
when both are supplied. -/
def run_agent_payload (messages : List JVal) (thread_id : Option String)
    (parent_message_id : Option String) (tool_choice : Option JVal) :
    List (String × JVal) :=
  let payload := [("messages", JVal.arr messages)]
  let payload :=
    match tool_choice with
    | some tc => payload ++ [("tool_choice", tc)]
    | none => payload
  match thread_id, parent_message_id with
  | some tid, some pid =>
      payload ++ [("thread_id", JVal.str tid), ("parent_message_id", JVal.str pid)]
  | _, _ => payload

/-- The payload built by `run_agent_stream` (lines 160-165), textually the
same construction as in `run_agent`. -/
def run_agent_stream_payload (messages : List JVal) (thread_id : Option String)
    (parent_message_id : Option String) (tool_choice : Option JVal) :
    List (String × JVal) :=
  let payload := [("messages", JVal.arr messages)]
  let payload :=
    match tool_choice with
    | some tc => payload ++ [("tool_choice", tc)]
    | none => payload
  match thread_id, parent_message_id with
  | some tid, some pid =>
      payload ++ [("thread_id", JVal.str tid), ("parent_message_id", JVal.str pid)]
  | _, _ => payload

/-! ## Concrete scenario data -/

/-- The SSE line stream of the three-chunk scenario: a status event, two
text deltas, and the terminal `response` event, each block blank-line
terminated. -/
def c1Lines : List String :=
  ["event: response.status", "data: \x7b\"status\": \"executing\"\x7d", "",
   "event: response.text.delta", "data: \x7b\"text\": \"Hi\"\x7d", "",
   "event: response.text.delta", "data: \x7b\"text\": \" there\"\x7d", "",
   "event: response", "data: \x7b\"content\": \"Hi there\"\x7d", ""]

/-- A concrete JSON parser covering exactly the payloads of `c1Lines`. -/
def c1Jparse : String → Option JVal := fun s =>
  if s = "\x7b\"status\": \"executing\"\x7d" then
    some (.obj [("status", JVal.str "executing")])
  else if s = "\x7b\"text\": \"Hi\"\x7d" then
    some (.obj [("text", JVal.str "Hi")])
  else if s = "\x7b\"text\": \" there\"\x7d" then
    some (.obj [("text", JVal.str " there")])
  else if s = "\x7b\"content\": \"Hi there\"\x7d" then
    some (.obj [("content", JVal.str "Hi there")])
  else none

/-- A concrete client state for witnesses. -/
def st0 : ClientState := ⟨"", 300, 120, none⟩

/-! ## C1 -/

/-- C1: with a 200 status and an SSE stream decoding to the events
`response.status`, `response.text.delta "Hi"`, `response.text.delta " there"`
and `response` with content `"Hi there"`, `run_agent_stream` with raw-event
visibility disabled yields exactly `content "Hi"`, `content " there"`,
`final "Hi there"`, in this order; the `response.status` event, from which
no content is extracted, yields nothing. -/
theorem c1_stream_scenario_chunks (jparse : String → Option JVal)
    (st : ClientState)
    (h1 : jparse "\x7b\"status\": \"executing\"\x7d" =
      some (.obj [("status", JVal.str "executing")]))
    (h2 : jparse "\x7b\"text\": \"Hi\"\x7d" =
      some (.obj [("text", JVal.str "Hi")]))
    (h3 : jparse "\x7b\"text\": \" there\"\x7d" =
      some (.obj [("text", JVal.str " there")]))
    (h4 : jparse "\x7b\"content\": \"Hi there\"\x7d" =
      some (.obj [("content", JVal.str "Hi there")])) :
    (run_agent_stream jparse st (.response 200 "" c1Lines none) false).1 =
      [Chunk.content "Hi", Chunk.content " there", Chunk.final "Hi there"] := by
  have p1 : parse_sse_block jparse
      ["event: response.status", "data: \x7b\"status\": \"executing\"\x7d"] =
      some (.obj [("status", JVal.str "executing"),
                  ("event", JVal.str "response.status")]) := by
    unfold parse_sse_block
    rw [show sse_data_str
        ["event: response.status", "data: \x7b\"status\": \"executing\"\x7d"] =
        "\x7b\"status\": \"executing\"\x7d" from rfl, h1]
    rfl
  have p2 : parse_sse_block jparse
      ["event: response.text.delta", "data: \x7b\"text\": \"Hi\"\x7d"] =
      some (.obj [("text", JVal.str "Hi"),
                  ("event", JVal.str "response.text.delta")]) := by
    unfold parse_sse_block
    rw [show sse_data_str
        ["event: response.text.delta", "data: \x7b\"text\": \"Hi\"\x7d"] =
        "\x7b\"text\": \"Hi\"\x7d" from rfl, h2]
    rfl
  have p3 : parse_sse_block jparse
      ["event: response.text.delta", "data: \x7b\"text\": \" there\"\x7d"] =
      some (.obj [("text", JVal.str " there"),
                  ("event", JVal.str "response.text.delta")]) := by
    unfold parse_sse_block
    rw [show sse_data_str
        ["event: response.text.delta", "data: \x7b\"text\": \" there\"\x7d"] =
        "\x7b\"text\": \" there\"\x7d" from rfl, h3]
    rfl
  have p4 : parse_sse_block jparse
      ["event: response", "data: \x7b\"content\": \"Hi there\"\x7d"] =
      some (.obj [("content", JVal.str "Hi there"),
                  ("event", JVal.str "response")]) := by
    unfold parse_sse_block
    rw [show sse_data_str
        ["event: response", "data: \x7b\"content\": \"Hi there\"\x7d"] =
        "\x7b\"content\": \"Hi there\"\x7d" from rfl, h4]
    rfl
  have hi : iter_sse jparse c1Lines =
      [some (.obj [("status", JVal.str "executing"),
                   ("event", JVal.str "response.status")]),
       some (.obj [("text", JVal.str "Hi"),
                   ("event", JVal.str "response.text.delta")]),
       some (.obj [("text", JVal.str " there"),
                   ("event", JVal.str "response.text.delta")]),
       some (.obj [("content", JVal.str "Hi there"),
                   ("event", JVal.str "response")])] := by
    unfold iter_sse
    rw [show sse_blocks c1Lines =
        [["event: response.status", "data: \x7b\"status\": \"executing\"\x7d"],
         ["event: response.text.delta", "data: \x7b\"text\": \"Hi\"\x7d"],
         ["event: response.text.delta", "data: \x7b\"text\": \" there\"\x7d"],
         ["event: response", "data: \x7b\"content\": \"Hi there\"\x7d"]] from rfl]
    simp only [List.map_cons, List.map_nil]
    rw [p1, p2, p3, p4]
  unfold run_agent_stream
  simp only [hi]
  rfl

/-- Witness for C1 at a concrete parser and client state. -/
theorem c1_stream_scenario_chunks_witness :
    (run_agent_stream c1Jparse st0 (.response 200 "" c1Lines none) false).1 =
      [Chunk.content "Hi", Chunk.content " there", Chunk.final "Hi there"] :=
  c1_stream_scenario_chunks c1Jparse st0 rfl rfl rfl rfl

/-! ## C7 -/

/-- C7: whenever the initial status of a streaming run is not 200,
`run_agent_stream` yields exactly one chunk, an `error` chunk carrying the
status code and the body truncated to 2000 characters (hence of length at
most 2000), leaves the client state untouched, and the sequence ends with
no further chunks regardless of what the stream would have contained. -/
theorem c7_bad_status_single_error_chunk (jparse : String → Option JVal)
    (st : ClientState) (status : Nat) (body : String) (lines : List String)
    (tail : Option Exc) (ye : Bool) (h : status ≠ 200) :
    run_agent_stream jparse st (.response status body lines tail) ye =
      ([Chunk.error ("HTTP " ++ toString status ++ ": " ++ pyTake body 2000)],
        st) ∧
    (pyTake body 2000).length ≤ 2000 := by
  constructor
  · simp only [run_agent_stream]
    rw [if_pos h]
  · show (String.mk (body.toList.take 2000)).length ≤ 2000
    have : (String.mk (body.toList.take 2000)).length =
        (body.toList.take 2000).length := rfl
    rw [this, List.length_take]
    exact min_le_left _ _

/-- Witness for C7 at status 503. -/
theorem c7_bad_status_single_error_chunk_witness :
    run_agent_stream (fun _ => none) st0 (.response 503 "oops" ["data: x"] none)
        false =
      ([Chunk.error ("HTTP " ++ toString 503 ++ ": " ++ pyTake "oops" 2000)],
        st0) ∧
    (pyTake "oops" 2000).length ≤ 2000 :=
  c7_bad_status_single_error_chunk (fun _ => none) st0 503 "oops" ["data: x"]
    none false (by decide)

/-! ## C8 -/

/-- C8: an event whose name is `response.text.delta` or `response.text` and
which carries a string `text` field extracts to that text verbatim via the
first-priority rule, for every such event - in particular regardless of any
`content` field it may also carry, which is never consulted. -/
theorem c8_delta_text_first_priority (f : List (String × JVal)) (t : String)
    (hn : getStr f "event" = some "response.text.delta" ∨
      getStr f "event" = some "response.text")
    (ht : f.lookup "text" = some (JVal.str t)) :
    extract_content (.obj f) = t := by
  have hgs : getStr f "text" = some t := by
    unfold getStr
    rw [ht]
  simp only [extract_content, extractRule1]
  rw [if_pos hn, hgs]

/-- Witness for C8 on an event carrying both a `text` and a `content`
field, where the generic content rule would have returned the other
value. -/
theorem c8_delta_text_first_priority_witness :
    extract_content (.obj [("event", JVal.str "response.text.delta"),
      ("text", JVal.str "Hello"), ("content", JVal.str "WRONG")]) = "Hello" :=
  c8_delta_text_first_priority
    [("event", JVal.str "response.text.delta"),
     ("text", JVal.str "Hello"), ("content", JVal.str "WRONG")]
    "Hello" (Or.inl rfl) rfl

/-! ## C9 -/

/-- C9: the payloads built by `run_agent` and `run_agent_stream` coincide;
they carry the caller's `messages` list verbatim under `messages` (no other
messages are injected); and they contain `thread_id` and
`parent_message_id` exactly when both arguments are non-absent, with the
given values, and neither key when either argument is absent. -/
theorem c9_payload_thread_continuity (messages : List JVal)
    (tid pid : Option String) (tc : Option JVal) :
    run_agent_payload messages tid pid tc =
      run_agent_stream_payload messages tid pid tc ∧
    (run_agent_payload messages tid pid tc).lookup "messages" =
      some (JVal.arr messages) ∧
    (∀ t p, tid = some t → pid = some p →
      (run_agent_payload messages tid pid tc).lookup "thread_id" =
        some (JVal.str t) ∧
      (run_agent_payload messages tid pid tc).lookup "parent_message_id" =
        some (JVal.str p)) ∧
    ((tid = none ∨ pid = none) →
      (run_agent_payload messages tid pid tc).lookup "thread_id" = none ∧
      (run_agent_payload messages tid pid tc).lookup "parent_message_id" =
        none) := by
  obtain _ | t0 := tid <;> obtain _ | p0 := pid <;> obtain _ | c0 := tc <;>
    refine ⟨rfl, rfl, fun t p ht hp => ?_, fun h => ?_⟩
  all_goals first
    | exact ⟨rfl, rfl⟩
    | (cases ht; done)
    | (cases hp; done)
    | (injection ht with ht; injection hp with hp; subst ht; subst hp;
        exact ⟨rfl, rfl⟩)
    | (rcases h with h | h <;> cases h)

/-- Witness for C9 with both thread arguments present and with one
absent. -/
theorem c9_payload_thread_continuity_witness :
    ((run_agent_payload [JVal.str "m"] (some "th1") (some "pm1") none).lookup
        "thread_id" = some (JVal.str "th1") ∧
      (run_agent_payload [JVal.str "m"] (some "th1") (some "pm1") none).lookup
        "parent_message_id" = some (JVal.str "pm1")) ∧
    ((run_agent_payload [JVal.str "m"] (some "th1") none none).lookup
        "thread_id" = none ∧
      (run_agent_payload [JVal.str "m"] (some "th1") none none).lookup
        "parent_message_id" = none) :=
  ⟨(c9_payload_thread_continuity [JVal.str "m"] (some "th1") (some "pm1")
      none).2.2.1 "th1" "pm1" rfl rfl,
   (c9_payload_thread_continuity [JVal.str "m"] (some "th1") none
      none).2.2.2 (Or.inr rfl)⟩

/-! ## C10 -/

/-- C10: the two error paths differ on `last_error`: a non-200 status
yields its error chunk with the client state (hence `last_error`) entirely
unchanged, while a connection-time or mid-stream transport exception
(read timeout or any other request exception) records the yielded error
description in `last_error`; a run that completes normally leaves the
state unchanged, and no run changes any field other than `last_error`. -/
theorem c10_last_error_frame_conditions (jparse : String → Option JVal)
    (st : ClientState) (ye : Bool) :
    (∀ status body lines tail, status ≠ 200 →
      run_agent_stream jparse st (.response status body lines tail) ye =
        ([Chunk.error ("HTTP " ++ toString status ++ ": " ++ pyTake body 2000)],
          st)) ∧
    (∀ e, run_agent_stream jparse st (.connError e) ye =
      ([Chunk.error (excErrorText e)],
        { st with last_error := some (excErrorText e) })) ∧
    (∀ body lines e,
      (run_agent_stream jparse st (.response 200 body lines (some e)) ye).2 =
          { st with last_error := some (excErrorText e) } ∧
      (run_agent_stream jparse st
          (.response 200 body lines (some e)) ye).1.getLast? =
        some (Chunk.error (excErrorText e))) ∧
    (∀ body lines,
      (run_agent_stream jparse st (.response 200 body lines none) ye).2 = st) ∧
    (∀ conn,
      (run_agent_stream jparse st conn ye).2.base_url = st.base_url ∧
      (run_agent_stream jparse st conn ye).2.timeout_seconds =
        st.timeout_seconds ∧
      (run_agent_stream jparse st conn ye).2.read_timeout_seconds =
        st.read_timeout_seconds) := by
  refine ⟨?_, ?_, ?_, ?_, ?_⟩
  · intro status body lines tail h
    simp only [run_agent_stream]
    rw [if_pos h]
  · intro e
    simp only [run_agent_stream, handle_exc]
  · intro body lines e
    constructor
    · simp [run_agent_stream, handle_exc]
    · simp only [run_agent_stream, handle_exc]
      simp
  · intro body lines
    simp [run_agent_stream]
  · intro conn
    obtain ⟨status, body, lines, tail⟩ | e := conn
    · by_cases h : status = 200
      · subst h
        obtain _ | e := tail <;> simp [run_agent_stream, handle_exc]
      · simp [run_agent_stream, h]
    · simp [run_agent_stream, handle_exc]

/-- Witness for C10 at a non-200 status and at a read-timeout exception. -/
theorem c10_last_error_frame_conditions_witness :
    run_agent_stream (fun _ => none) st0 (.response 503 "oops" [] none) false =
      ([Chunk.error ("HTTP " ++ toString 503 ++ ": " ++ pyTake "oops" 2000)],
        st0) ∧
    run_agent_stream (fun _ => none) st0 (.connError (.readTimeout "t")) false =
      ([Chunk.error (excErrorText (.readTimeout "t"))],
        { st0 with last_error := some (excErrorText (.readTimeout "t")) }) :=
  ⟨(c10_last_error_frame_conditions (fun _ => none) st0 false).1 503 "oops" []
      none (by decide),
   (c10_last_error_frame_conditions (fun _ => none) st0 false).2.1
      (.readTimeout "t")⟩

/-! ## C4 -/

/-- C4: a block whose joined data parses as a JSON object is returned with
the frame's event-type name injected under `event` exactly when the object
lacks its own `event` key (an object that already has one is returned
unchanged, its value never overwritten); and within a block the last
`event:` line determines the frame's event-type name. -/
theorem c4_object_event_injection (jparse : String → Option JVal)
    (lines : List String) (o : List (String × JVal))
    (hne : sse_data_str lines ≠ "")
    (hp : jparse (sse_data_str lines) = some (.obj o)) :
    parse_sse_block jparse lines =
      (match sse_event_type lines with
       | some et =>
           if et != "" && (o.lookup "event").isNone then
             some (JVal.obj (o ++ [("event", JVal.str et)]))
           else some (JVal.obj o)
       | none => some (JVal.obj o)) ∧
    (∀ pre l, pyStartsWith l "event:" = true →
      sse_event_type (pre ++ [l]) = some (pyStrip (pyDropChars l 6))) := by
  constructor
  · unfold parse_sse_block
    rw [if_neg hne, hp]
  · intro pre l hl
    unfold sse_event_type
    rw [List.foldl_append]
    simp [hl]

/-- Witness for C4: a parsed object lacking `event` gets the frame name
injected; the last of two `event:` lines wins. -/
theorem c4_object_event_injection_witness :
    parse_sse_block c1Jparse
      ["event: response.status", "data: \x7b\"status\": \"executing\"\x7d"] =
      some (.obj [("status", JVal.str "executing"),
                  ("event", JVal.str "response.status")]) ∧
    sse_event_type (["event: aaa"] ++ ["event: bbb"]) = some "bbb" := by
  constructor
  · have h := (c4_object_event_injection c1Jparse
      ["event: response.status", "data: \x7b\"status\": \"executing\"\x7d"]
      [("status", JVal.str "executing")] (by decide) rfl).1
    rw [h]
    rfl
  · exact (c4_object_event_injection c1Jparse
      ["event: response.status", "data: \x7b\"status\": \"executing\"\x7d"]
      [("status", JVal.str "executing")] (by decide) rfl).2
      ["event: aaa"] "event: bbb" rfl

/-! ## C5 -/

/-- C5: a block whose joined, non-empty data fails to parse as JSON is
normalized (without raising) to the wrapper `{data: raw}`, with the `event`
key set to the frame's event-type name when a truthy one was present and
absent otherwise, so a malformed frame never aborts the stream. -/
theorem c5_nonjson_soft_fail_wrapper (jparse : String → Option JVal)
    (lines : List String) (hne : sse_data_str lines ≠ "")
    (hp : jparse (sse_data_str lines) = none) :
    parse_sse_block jparse lines =
      some (.obj (("data", JVal.str (sse_data_str lines)) ::
        (match sse_event_type lines with
         | some et => if et != "" then [("event", JVal.str et)] else []
         | none => []))) := by
  unfold parse_sse_block
  rw [if_neg hne, hp]
  rfl

/-- Witness for C5 on a block with an `event:` line and non-JSON data. -/
theorem c5_nonjson_soft_fail_wrapper_witness :
    parse_sse_block (fun _ => none) ["event: response.status", "data: oops"] =
      some (.obj [("data", JVal.str "oops"),
                  ("event", JVal.str "response.status")]) := by
  have h := c5_nonjson_soft_fail_wrapper (fun _ => none)
    ["event: response.status", "data: oops"] (by decide) rfl
  rw [h]
  rfl

/-! ## C6 -/

/-- All characters of a string are Python whitespace. -/
def allWs (s : String) : Bool := s.toList.all (· ∈ pyWsChars)

lemma pyJoinNl_allWs (ls : List String) (h : ∀ l ∈ ls, allWs l = true) :
    allWs (pyJoinNl ls) = true := by
  induction ls with
  | nil => rfl
  | cons x xs ih =>
      cases xs with
      | nil => exact h x (List.mem_cons_self x [])
      | cons y ys =>
          have hx := h x (List.mem_cons_self x (y :: ys))
          have hrest : allWs (pyJoinNl (y :: ys)) = true :=
            ih (fun l hl => h l (List.mem_cons_of_mem x hl))
          simp only [pyJoinNl, allWs, List.all_eq_true] at hx hrest ⊢
          intro c hc
          rw [String.toList, String.data_append, String.data_append] at hc
          rcases List.mem_append.mp hc with hc1 | hc2
          · rcases List.mem_append.mp hc1 with hc3 | hc4
            · exact hx c hc3
            · simp only [List.mem_singleton] at hc4
              subst hc4
              decide
          · exact hrest c hc2

lemma pyStrip_allWs (s : String) (h : allWs s = true) : pyStrip s = "" := by
  simp only [allWs, List.all_eq_true] at h
  unfold pyStrip
  have h1 : s.toList.dropWhile (· ∈ pyWsChars) = [] :=
    List.dropWhile_eq_nil_iff.mpr (fun c hc => by simpa using h c hc)
  rw [h1]
  rfl

lemma lookup_append_key (k : String) (xs ys : List (String × JVal)) :
    List.lookup k (xs ++ ys) =
      match List.lookup k xs with
      | some v => some v
      | none => List.lookup k ys := by
  induction xs with
  | nil => rfl
  | cons x xs ih =>
      obtain ⟨a, b⟩ := x
      simp only [List.cons_append, List.lookup]
      cases k == a
      · simpa using ih
      · rfl

/-- C6 fails on the code: the block `["data: x"]` (non-JSON data, no
`event:` line) is normalized to the truthy event `{data: "x"}`, which the
pipeline surfaces - here as a raw `event` chunk of a 200 run - even though
it carries no `event` metadata at all. -/
theorem c6_counterexample_event_without_metadata :
    (run_agent_stream (fun _ => none) st0 (.response 200 "" ["data: x"] none)
        true).1 =
      [Chunk.event (.obj [("data", JVal.str "x")])] ∧
    jGet (.obj [("data", JVal.str "x")]) "event" = none ∧
    jTruthy (.obj [("data", JVal.str "x")]) = true := by
  refine ⟨?_, rfl, rfl⟩
  rfl

/-- C6 amended: a block whose data lines are all blank or whitespace is
normalized to nothing (never an event with empty content); and whenever the
frame carried a non-empty `event:` name, every surfaced normalized event
does carry `event` metadata - but a block with data and no frame-level
`event:` name can be surfaced without any `event` key. -/
theorem c6_amended_empty_dropped_named_tagged (jparse : String → Option JVal)
    (lines : List String) :
    ((∀ l ∈ sse_data_lines lines, allWs l = true) →
      parse_sse_block jparse lines = none) ∧
    (∀ et, sse_event_type lines = some et → et ≠ "" →
      ∀ v, parse_sse_block jparse lines = some v →
        (jGet v "event").isSome = true) := by
  constructor
  · intro h
    have hds : sse_data_str lines = "" :=
      pyStrip_allWs _ (pyJoinNl_allWs _ h)
    unfold parse_sse_block
    rw [if_pos hds]
  · intro et hset hne2 v hv
    have hbne : (et != "") = true := by simpa using hne2
    unfold parse_sse_block at hv
    by_cases hds : sse_data_str lines = ""
    · rw [if_pos hds] at hv
      cases hv
    · rw [if_neg hds] at hv
      cases hj : jparse (sse_data_str lines) with
      | none =>
          rw [hj] at hv
          dsimp only at hv
          rw [hset] at hv
          unfold wrapperEventField at hv
          dsimp only at hv
          rw [if_pos hbne] at hv
          injection hv with hv
          subst hv
          rfl
      | some val =>
          rw [hj] at hv
          cases val with
          | obj fields =>
              dsimp only at hv
              rw [hset] at hv
              dsimp only at hv
              by_cases hev : (fields.lookup "event").isNone = true
              · rw [if_pos (by rw [hbne, hev]; rfl)] at hv
                injection hv with hv
                subst hv
                show (List.lookup "event" (fields ++ [("event", JVal.str et)])).isSome = true
                rw [lookup_append_key]
                rw [Option.isNone_iff_eq_none] at hev
                rw [hev]
                rfl
              · rw [if_neg (by rw [hbne]; simpa using hev)] at hv
                injection hv with hv
                subst hv
                show (List.lookup "event" fields).isSome = true
                cases hl : List.lookup "event" fields with
                | none => exact absurd (Option.isNone_iff_eq_none.mpr hl) hev
                | some w => rfl
          | null =>
              dsimp only at hv
              rw [hset] at hv
              unfold wrapperEventField at hv
              dsimp only at hv
              rw [if_pos hbne] at hv
              injection hv with hv
              subst hv
              rfl
          | bool b =>
              dsimp only at hv
              rw [hset] at hv
              unfold wrapperEventField at hv
              dsimp only at hv
              rw [if_pos hbne] at hv
              injection hv with hv
              subst hv
              rfl
          | num n =>
              dsimp only at hv
              rw [hset] at hv
              unfold wrapperEventField at hv
              dsimp only at hv
              rw [if_pos hbne] at hv
              injection hv with hv
              subst hv
              rfl
          | str s =>
              dsimp only at hv
              rw [hset] at hv
              unfold wrapperEventField at hv
              dsimp only at hv
              rw [if_pos hbne] at hv
              injection hv with hv
              subst hv
              rfl
          | arr xs =>
              dsimp only at hv
              rw [hset] at hv
              unfold wrapperEventField at hv
              dsimp only at hv
              rw [if_pos hbne] at hv
              injection hv with hv
              subst hv
              rfl

/-- Witness for the amended C6: an all-whitespace data block yields
nothing, and a non-JSON block with a named frame carries `event`
metadata. -/
theorem c6_amended_empty_dropped_named_tagged_witness :
    parse_sse_block (fun _ => none) ["data:  ", "data: \t"] = none ∧
    (jGet (.obj [("data", JVal.str "oops"),
      ("event", JVal.str "response.status")]) "event").isSome = true := by
  constructor
  · exact (c6_amended_empty_dropped_named_tagged (fun _ => none)
      ["data:  ", "data: \t"]).1 (by decide)
  · exact (c6_amended_empty_dropped_named_tagged (fun _ => none)
      ["event: response.status", "data: oops"]).2 "response.status" rfl
      (by decide) (.obj [("data", JVal.str "oops"),
        ("event", JVal.str "response.status")])
      (by rw [c5_nonjson_soft_fail_wrapper (fun _ => none)
        ["event: response.status", "data: oops"] (by decide) rfl]; rfl)

/-! ## C2 -/

def isErrorChunk : Chunk → Bool
  | .error _ => true
  | _ => false

def isTerminalChunk : Chunk → Bool
  | .final _ => true
  | .error _ => true
  | _ => false

lemma chunks_for_event_no_error (ye : Bool) (e : JVal) (c : Chunk)
    (hc : c ∈ chunks_for_event ye e) : isErrorChunk c = false := by
  unfold chunks_for_event at hc
  rcases List.mem_append.mp hc with h | h
  · cases ye
    · simp at h
    · simp at h
      subst h
      rfl
  · by_cases hn : eventNameOf e = some "response"
    · rw [if_pos hn] at h
      by_cases hce : (extract_content e != "") = true
      · rw [if_pos hce] at h
        rw [List.mem_singleton] at h
        subst h
        rfl
      · rw [if_neg hce] at h
        simp at h
    · rw [if_neg hn] at h
      by_cases hce : (extract_content e != "") = true
      · rw [if_pos hce] at h
        rw [List.mem_singleton] at h
        subst h
        rfl
      · rw [if_neg hce] at h
        simp at h

lemma stream_chunks_no_error (ye : Bool) (events : List (Option JVal))
    (c : Chunk) (hc : c ∈ stream_chunks ye events) : isErrorChunk c = false := by
  unfold stream_chunks at hc
  rw [List.mem_flatten] at hc
  obtain ⟨l, hl, hcl⟩ := hc
  rw [List.mem_map] at hl
  obtain ⟨ev, hev, rfl⟩ := hl
  cases ev with
  | none => simp at hcl
  | some e =>
      dsimp only at hcl
      by_cases ht : jTruthy e = true
      · rw [if_pos ht] at hcl
        exact chunks_for_event_no_error ye e c hcl
      · rw [if_neg ht] at hcl
        simp at hcl

/-- C2 fails on the code, in both directions: a 200 run whose stream closes
without ever delivering a `response`-named event ends with zero terminal
chunks (here the empty stream yields the empty chunk sequence), and a 200
run whose stream delivers two `response`-named events yields two `final`
chunks - never "exactly one" terminal chunk. -/
theorem c2_counterexample_run_without_terminal :
    ((run_agent_stream (fun _ => none) st0 (.response 200 "" [] none)
        false).1 = [] ∧
      ((run_agent_stream (fun _ => none) st0 (.response 200 "" [] none)
        false).1.filter isTerminalChunk).length = 0) ∧
    ((run_agent_stream c1Jparse st0 (.response 200 ""
        ["event: response", "data: \x7b\"content\": \"Hi there\"\x7d", "",
         "event: response", "data: \x7b\"content\": \"Hi there\"\x7d", ""]
        none) false).1 =
      [Chunk.final "Hi there", Chunk.final "Hi there"] ∧
      ((run_agent_stream c1Jparse st0 (.response 200 ""
        ["event: response", "data: \x7b\"content\": \"Hi there\"\x7d", "",
         "event: response", "data: \x7b\"content\": \"Hi there\"\x7d", ""]
        none) false).1.filter isTerminalChunk).length = 2) :=
  ⟨⟨rfl, rfl⟩, ⟨rfl, rfl⟩⟩

/-- C2 amended: every run's chunk sequence contains at most one `error`
chunk, and when an `error` chunk occurs it is the last chunk of the
sequence; `content`/`event` (and `final`) chunks may precede it zero or
more times, but a run may also end with no terminal chunk at all (when the
stream closes without a `response`-named event), and nothing bounds the
number of `final` chunks. -/
theorem c2_amended_error_unique_and_last (jparse : String → Option JVal)
    (st : ClientState) (conn : RunConn) (ye : Bool) :
    ((run_agent_stream jparse st conn ye).1.filter isErrorChunk).length ≤ 1 ∧
    (∀ c ∈ (run_agent_stream jparse st conn ye).1, isErrorChunk c = true →
      (run_agent_stream jparse st conn ye).1.getLast? = some c) := by
  obtain ⟨status, body, lines, tail⟩ | e := conn
  · by_cases h : status = 200
    · subst h
      obtain _ | e := tail
      · have h1 : (run_agent_stream jparse st
            (.response 200 body lines none) ye).1 =
            stream_chunks ye (iter_sse jparse lines) := by
          simp [run_agent_stream]
        rw [h1]
        have hf : (stream_chunks ye (iter_sse jparse lines)).filter
            isErrorChunk = [] := by
          rw [List.filter_eq_nil_iff]
          intro c hc
          rw [stream_chunks_no_error ye _ c hc]
          simp
        constructor
        · rw [hf]
          simp
        · intro c hc hce
          rw [stream_chunks_no_error ye _ c hc] at hce
          cases hce
      · have h1 : (run_agent_stream jparse st
            (.response 200 body lines (some e)) ye).1 =
            stream_chunks ye
              ((sse_blocks_noflush lines).map (parse_sse_block jparse)) ++
              [Chunk.error (excErrorText e)] := by
          simp [run_agent_stream, handle_exc]
        rw [h1]
        have hf : (stream_chunks ye
            ((sse_blocks_noflush lines).map (parse_sse_block jparse))).filter
            isErrorChunk = [] := by
          rw [List.filter_eq_nil_iff]
          intro c hc
          rw [stream_chunks_no_error ye _ c hc]
          simp
        constructor
        · rw [List.filter_append, hf]
          simp [isErrorChunk]
        · intro c hc hce
          rw [List.getLast?_concat]
          rcases List.mem_append.mp hc with h2 | h2
          · rw [stream_chunks_no_error ye _ c h2] at hce
            cases hce
          · rw [List.mem_singleton] at h2
            subst h2
            rfl
    · have h1 : (run_agent_stream jparse st
          (.response status body lines tail) ye).1 =
          [Chunk.error ("HTTP " ++ toString status ++ ": " ++
            pyTake body 2000)] := by
        simp [run_agent_stream, h]
      rw [h1]
      constructor
      · simp [isErrorChunk]
      · intro c hc hce
        rw [List.mem_singleton] at hc
        subst hc
        rfl
  · have h1 : (run_agent_stream jparse st (.connError e) ye).1 =
        [Chunk.error (excErrorText e)] := by
      simp [run_agent_stream, handle_exc]
    rw [h1]
    constructor
    · simp [isErrorChunk]
    · intro c hc hce
      rw [List.mem_singleton] at hc
      subst hc
      rfl

/-- Witness for the amended C2 at a connection-time read timeout. -/
theorem c2_amended_error_unique_and_last_witness :
    (((run_agent_stream (fun _ => none) st0 (.connError (.readTimeout "t"))
        false).1.filter isErrorChunk).length ≤ 1) ∧
    (run_agent_stream (fun _ => none) st0 (.connError (.readTimeout "t"))
        false).1.getLast? = some (Chunk.error "Stream read timeout: t") := by
  refine ⟨(c2_amended_error_unique_and_last (fun _ => none) st0
    (.connError (.readTimeout "t")) false).1,
    (c2_amended_error_unique_and_last (fun _ => none) st0
      (.connError (.readTimeout "t")) false).2
      (Chunk.error "Stream read timeout: t") ?_ rfl⟩
  show Chunk.error "Stream read timeout: t" ∈
    [Chunk.error (excErrorText (.readTimeout "t"))]
  exact List.mem_singleton.mpr rfl

/-! ## C3 -/

/-- The input shape of C3: the given blocks separated by single blank
lines (no trailing terminator). -/
def sepBlocks : List (List String) → List String
  | [] => []
  | [b] => b
  | b :: rest => b ++ [""] ++ sepBlocks rest

/-- Feeding a run of non-blank, already-stripped lines into the decoder
loop just extends the buffer. -/
lemma sse_blocks_go_feed : ∀ (b buffer rest : List String),
    (∀ l ∈ b, stripNl l = l ∧ l ≠ "") →
    sse_blocks_go buffer (b ++ rest) = sse_blocks_go (buffer ++ b) rest := by
  intro b
  induction b with
  | nil =>
      intro buffer rest _
      simp
  | cons x xs ih =>
      intro buffer rest hb
      have hx := hb x (List.mem_cons_self x xs)
      have hrec := ih (buffer ++ [x]) rest
        (fun l hl => hb l (List.mem_cons_of_mem x hl))
      simp only [List.cons_append, sse_blocks_go, List.append_eq]
      rw [hx.1, if_neg hx.2, hrec, List.append_assoc]
      rfl

/-- A blank line flushes the buffer. -/
lemma sse_blocks_go_blank (buffer rest : List String) :
    sse_blocks_go buffer ("" :: rest) = buffer :: sse_blocks_go [] rest := by
  rfl

lemma sse_blocks_sep_terminated : ∀ bs : List (List String), bs ≠ [] →
    (∀ b ∈ bs, b ≠ [] ∧ ∀ l ∈ b, stripNl l = l ∧ l ≠ "") →
    sse_blocks_go [] (sepBlocks bs ++ [""]) = bs := by
  intro bs
  induction bs with
  | nil =>
      intro hne _
      exact absurd rfl hne
  | cons b rest ih =>
      intro _ h
      have hb := h b (List.mem_cons_self b rest)
      cases rest with
      | nil =>
          rw [show sepBlocks [b] = b from rfl]
          rw [sse_blocks_go_feed b [] [""] hb.2]
          simp only [List.nil_append]
          rw [sse_blocks_go_blank]
          rfl
      | cons c rest2 =>
          rw [show sepBlocks (b :: c :: rest2) =
            b ++ [""] ++ sepBlocks (c :: rest2) from rfl]
          rw [List.append_assoc, List.append_assoc]
          rw [sse_blocks_go_feed b [] _ hb.2]
          simp only [List.nil_append, List.singleton_append]
          rw [sse_blocks_go_blank]
          rw [ih (by simp) (fun b2 hb2 => h b2 (List.mem_cons_of_mem b hb2))]

lemma sse_blocks_sep_unterminated : ∀ bs : List (List String),
    (∀ b ∈ bs, b ≠ [] ∧ ∀ l ∈ b, stripNl l = l ∧ l ≠ "") →
    sse_blocks_go [] (sepBlocks bs) = bs := by
  intro bs
  induction bs with
  | nil =>
      intro _
      rfl
  | cons b rest ih =>
      intro h
      have hb := h b (List.mem_cons_self b rest)
      cases rest with
      | nil =>
          rw [show sepBlocks [b] = b from rfl]
          rw [show (b : List String) = b ++ [] from (List.append_nil b).symm,
            sse_blocks_go_feed b [] [] hb.2]
          simp only [List.nil_append, List.append_nil, sse_blocks_go]
          rw [if_neg (by simpa using hb.1)]
      | cons c rest2 =>
          rw [show sepBlocks (b :: c :: rest2) =
            b ++ [""] ++ sepBlocks (c :: rest2) from rfl]
          rw [List.append_assoc]
          rw [sse_blocks_go_feed b [] _ hb.2]
          simp only [List.nil_append, List.singleton_append]
          rw [sse_blocks_go_blank]
          rw [ih (fun b2 hb2 => h b2 (List.mem_cons_of_mem b hb2))]

/-- C3: for a line stream consisting of non-empty blocks of non-blank
lines separated by single blank lines, the decoder yields exactly one
block per delimited group, in source order - both when the final block is
blank-line terminated and when it is truncated (no trailing terminator),
in which case the pending buffered lines are still flushed as one last
block. -/
theorem c3_decoder_one_block_per_group (bs : List (List String))
    (hne : bs ≠ [])
    (h : ∀ b ∈ bs, b ≠ [] ∧ ∀ l ∈ b, stripNl l = l ∧ l ≠ "") :
    sse_blocks (sepBlocks bs ++ [""]) = bs ∧
    sse_blocks (sepBlocks bs) = bs :=
  ⟨sse_blocks_sep_terminated bs hne h, sse_blocks_sep_unterminated bs h⟩

/-- Witness for C3 on two concrete blocks. -/
theorem c3_decoder_one_block_per_group_witness :
    sse_blocks (sepBlocks [["event: a", "data: 1"], ["data: 2"]] ++ [""]) =
      [["event: a", "data: 1"], ["data: 2"]] ∧
    sse_blocks (sepBlocks [["event: a", "data: 1"], ["data: 2"]]) =
      [["event: a", "data: 1"], ["data: 2"]] :=
  c3_decoder_one_block_per_group [["event: a", "data: 1"], ["data: 2"]]
    (by decide) (by decide)
